import Mathlib

/-
  Verification development for the project-links task-management repository.

  The repository consists of SQL migrations (a provisioning trigger, an
  idempotent repair procedure, statistics functions, row-level-security
  policies), a schema document with the table DDL, and client-side Zustand
  stores.  This file gives a shallow embedding of those parts and proves or
  refutes the specified properties.

  Modelling conventions:
  - SQL text and uuid values are Lean String.
  - SQL NULL is Option.none; json maps are association lists.
  - Dates and timestamps live on a single Int axis; the SQL comparison
    due_date < NOW() with a NULL date is three-valued and filters to false.
  - Errors raised by a SQL statement are Except.error; a PL/pgSQL
    EXCEPTION WHEN OTHERS block is a match on that Except value.
  - Generated uuids for seeded categories are modelled as owner-tagged
    names, which are unique per (owner, name) exactly as gen_random_uuid
    values are unique.
-/

/- ===================== basic schema types ===================== -/

/-- Task status enumeration, from the tasks table CHECK constraint. -/
inductive TaskStatus where
  | pending
  | in_progress
  | completed
deriving DecidableEq, BEq

/-- Task priority enumeration, from the tasks table CHECK constraint. -/
inductive TaskPriority where
  | low
  | medium
  | high
deriving DecidableEq, BEq

/-- Row of public.profiles.  The migrations insert the columns id, email,
full_name and preferences; preferences defaults to the empty json object. -/
structure ProfileRow where
  id : String
  email : Option String
  full_name : Option String
  preferences : List (String × String)
deriving DecidableEq

/-- Row of public.categories per the DDL: id (generated primary key), name,
color, user_id.  The DDL declares no unique constraint besides the primary
key; the only extra index, idx_categories_user_id, is non-unique. -/
structure CategoryRow where
  id : String
  name : String
  color : String
  user_id : String
deriving DecidableEq

/-- Row of public.tasks per the DDL. -/
structure TaskRow where
  id : String
  title : String
  description : Option String
  due_date : Option Int
  priority : TaskPriority
  status : TaskStatus
  user_id : String
  category_id : Option String
deriving DecidableEq

/-- The mutable database state: the three application tables. -/
structure DBState where
  profiles : List ProfileRow
  categories : List CategoryRow
  tasks : List TaskRow
deriving DecidableEq

/-- Errors a modelled SQL statement can raise. -/
inductive PgError where
  | uniqueViolation
  | onConflictInference
deriving DecidableEq

/- ===================== string helpers ===================== -/

/-- Whether the character list s starts with the character list pat. -/
def charsLeadWith : List Char → List Char → Bool
  | [], _ => true
  | _ :: _, [] => false
  | a :: ps, b :: ss => a == b && charsLeadWith ps ss

/-- Whether the character list s contains pat as a contiguous run. -/
def charsContain (pat : List Char) : List Char → Bool
  | [] => pat.isEmpty
  | b :: ss => charsLeadWith pat (b :: ss) || charsContain pat ss

/-- Substring test: SQL LIKE with percent on both sides, and the JS
String.prototype.includes test. -/
def likeContains (pat s : String) : Bool :=
  charsContain pat.toList s.toList

/- ===================== provisioning trigger and repair ===================== -/

/-- The freshly created auth.users row as seen by the trigger: NEW.id,
NEW.email, and NEW.raw_user_meta_data full_name. -/
structure NewUser where
  id : String
  email : Option String
  raw_full_name : Option String
deriving DecidableEq

/-- Plain INSERT into public.profiles.  The table has primary key id, so the
insert raises a unique violation exactly when a profile with that id already
exists. -/
def profilesInsert (p : ProfileRow) (db : DBState) : Except PgError DBState :=
  if db.profiles.any (fun q => q.id == p.id) then Except.error PgError.uniqueViolation
  else Except.ok { db with profiles := db.profiles ++ [p] }

/-- The profile row built by the fixed handle_new_user trigger:
COALESCE(NEW.email, empty), COALESCE(full_name metadata, empty), empty
preferences object. -/
def profileRowOfUser (u : NewUser) : ProfileRow :=
  { id := u.id
  , email := some (u.email.getD "")
  , full_name := some (u.raw_full_name.getD "")
  , preferences := [] }

/-- The control skeleton of the fixed handle_new_user trigger body: the body
runs the profile insert, and the EXCEPTION WHEN OTHERS handler turns any
error of that statement into a logged no-op; both paths RETURN NEW.  The
first component is the resulting database, the second is true when the
trigger returns successfully.  Taking the insert outcome as an argument lets
the theorems quantify over every possible error of the body. -/
def handle_new_user_on (r : Except PgError DBState) (db : DBState) : DBState × Bool :=
  match r with
  | Except.ok db2 => (db2, true)
  | Except.error _ => (db, true)

/-- public.handle_new_user from the fix migration: inserts the profile row
and swallows any error.  This version, installed after DROP TRIGGER and
DROP FUNCTION of the earlier one, no longer invokes the category seeding. -/
def handle_new_user (u : NewUser) (db : DBState) : DBState × Bool :=
  handle_new_user_on (profilesInsert (profileRowOfUser u) db) db

/-- Result of creating an auth identity: whether the identity row survived
(an AFTER INSERT trigger that raises aborts the enclosing insert), plus the
application tables. -/
structure SignupOutcome where
  identity_created : Bool
  db : DBState
deriving DecidableEq

/-- Identity creation running the on_auth_user_created trigger with the given
body outcome. -/
def signupWith (r : Except PgError DBState) (db : DBState) : SignupOutcome :=
  { identity_created := (handle_new_user_on r db).2
  , db := (handle_new_user_on r db).1 }

/-- Identity creation running the installed handle_new_user trigger. -/
def signUp (u : NewUser) (db : DBState) : SignupOutcome :=
  signupWith (profilesInsert (profileRowOfUser u) db) db

/-- Unique or exclusion constraints available on public.categories for
ON CONFLICT inference: only the primary key on id.  The DDL declares no
unique constraint on (name, user_id); idx_categories_user_id is non-unique. -/
def categoriesUniqueTargets : List (List String) :=
  [["id"]]

/-- Whether an ON CONFLICT column target is backed by a unique constraint.
PostgreSQL raises an inference error for the whole INSERT when it is not,
before any row is inserted, even when no conflict would occur. -/
def onConflictTargetBacked (target : List String) : Bool :=
  categoriesUniqueTargets.contains target

/-- The five fixed default (name, color) pairs of the seeding function. -/
def defaultCategories : List (String × String) :=
  [ ("Work", "#3B82F6")
  , ("Personal", "#10B981")
  , ("Learning", "#F59E0B")
  , ("Health", "#EF4444")
  , ("Finance", "#8B5CF6") ]

/-- One row of the seeding insert under ON CONFLICT (name, user_id) DO
NOTHING semantics: skip when a category with that name already exists for
that owner. -/
def seedCategory (uid : String) (nc : String × String) (cats : List CategoryRow) : List CategoryRow :=
  if cats.any (fun c => c.name == nc.1 && c.user_id == uid) then cats
  else cats ++ [{ id := uid ++ ":" ++ nc.1, name := nc.1, color := nc.2, user_id := uid }]

/-- public.create_default_categories_for_user: a single INSERT of the five
default categories with ON CONFLICT (name, user_id) DO NOTHING.  Because the
categories table has no unique constraint on (name, user_id), PostgreSQL
cannot infer an arbiter index and the statement raises instead of inserting
or skipping.  The source also lists a description column that the DDL does
not declare; that second mismatch is not modelled because the statement
already fails at conflict inference. -/
def create_default_categories_for_user (uid : String) (db : DBState) : Except PgError DBState :=
  if onConflictTargetBacked ["name", "user_id"] then
    Except.ok { db with categories := defaultCategories.foldl (fun cs nc => seedCategory uid nc cs) db.categories }
  else Except.error PgError.onConflictInference

/-- The earlier handle_new_user version from the seed-data migration: profile
insert without COALESCE or explicit preferences, then PERFORM of the category
seeding, with no exception handler, so any error propagates and aborts the
identity insert. -/
def handle_new_user_v000 (u : NewUser) (db : DBState) : Except PgError DBState :=
  match profilesInsert { id := u.id, email := u.email, full_name := u.raw_full_name, preferences := [] } db with
  | Except.ok db2 => create_default_categories_for_user u.id db2
  | Except.error e => Except.error e

/-- public.ensure_user_profile: INSERT with COALESCE fallbacks and
ON CONFLICT (id) DO NOTHING.  Here the conflict target is the primary key of
profiles, so inference succeeds and an existing row makes the statement a
silent no-op. -/
def ensure_user_profile (uid : String) (user_email user_name : Option String) (db : DBState) : DBState :=
  if db.profiles.any (fun p => p.id == uid) then db
  else { db with profiles := db.profiles ++ [{ id := uid, email := some (user_email.getD ""), full_name := some (user_name.getD ""), preferences := [] }] }

/-- k successive calls of the repair procedure with the same arguments. -/
def iterateRepair (uid : String) (user_email user_name : Option String) : Nat → DBState → DBState
  | 0, db => db
  | k + 1, db => iterateRepair uid user_email user_name k (ensure_user_profile uid user_email user_name db)

/-- Number of profile rows carrying the given id. -/
def countProfiles (uid : String) (db : DBState) : Nat :=
  (db.profiles.filter (fun p => p.id == uid)).length

/- ===================== row-level-security policies ===================== -/

/-- Evaluation context of a policy predicate: the JWT claims seen by
auth.uid() and auth.role(), the session role setting, the role the statement
runs as (for TO clauses), and the connection identifiers used by the
trigger-oriented policy. -/
structure PolicyCtx where
  auth_uid : Option String
  auth_role : String
  role_setting : String
  db_role : String
  application_name : String
  current_user : String
  session_user : String
deriving DecidableEq

/-- Policy "Users can insert own profile" (after the fix migration):
WITH CHECK (auth.uid() = id OR auth.role() = service_role OR
current_setting(role) = service_role). -/
def policy_users_can_insert_own_profile (c : PolicyCtx) (row_id : String) : Bool :=
  c.auth_uid == some row_id || c.auth_role == "service_role" || c.role_setting == "service_role"

/-- Policy "Allow service role to insert profiles": FOR INSERT TO
service_role WITH CHECK (true); it applies exactly when the statement runs
as the service role. -/
def policy_allow_service_role_to_insert (c : PolicyCtx) : Bool :=
  c.db_role == "service_role"

/-- Policy "Allow trigger to insert profiles": WITH CHECK
(application_name LIKE percent trigger percent OR current_user = postgres OR
session_user = postgres). -/
def policy_allow_trigger_to_insert (c : PolicyCtx) : Bool :=
  likeContains "trigger" c.application_name || c.current_user == "postgres" || c.session_user == "postgres"

/-- Permissive policies combine disjunctively: an insert into profiles is
allowed when any of the three insert policies accepts it. -/
def profiles_insert_allowed (c : PolicyCtx) (row_id : String) : Bool :=
  policy_users_can_insert_own_profile c row_id
    || policy_allow_service_role_to_insert c
    || policy_allow_trigger_to_insert c

/-- Stated from the claim text, for comparison: insert permitted precisely
when the principal id equals the row id, or the principal is the elevated
service role (by JWT claim or by running as that role), or the session
carries the elevated-role session-level marker. -/
def claimed_profiles_insert_allowed (c : PolicyCtx) (row_id : String) : Bool :=
  c.auth_uid == some row_id || c.auth_role == "service_role" || c.db_role == "service_role" || c.role_setting == "service_role"

/-- Policy "Users can manage own categories": one blanket FOR ALL predicate
USING (auth.uid() = user_id). -/
def users_can_manage_own_categories (auth_uid : Option String) (row : CategoryRow) : Bool :=
  auth_uid == some row.user_id

/-- Policy "Users can manage own tasks": one blanket FOR ALL predicate
USING (auth.uid() = user_id). -/
def users_can_manage_own_tasks (auth_uid : Option String) (row : TaskRow) : Bool :=
  auth_uid == some row.user_id

/-- SELECT on tasks under row-level security: only rows passing the policy
are visible. -/
def selectTasks (auth_uid : Option String) (db : DBState) : List TaskRow :=
  db.tasks.filter (fun t => users_can_manage_own_tasks auth_uid t)

/-- UPDATE ... WHERE id = tid on tasks under row-level security: rows failing
the USING predicate are invisible to the update. -/
def updateTasksWhere (auth_uid : Option String) (tid : String) (f : TaskRow → TaskRow) (db : DBState) : DBState :=
  { db with tasks := db.tasks.map (fun t => if t.id == tid && users_can_manage_own_tasks auth_uid t then f t else t) }

/-- DELETE ... WHERE id = tid on tasks under row-level security. -/
def deleteTasksWhere (auth_uid : Option String) (tid : String) (db : DBState) : DBState :=
  { db with tasks := db.tasks.filter (fun t => !(t.id == tid && users_can_manage_own_tasks auth_uid t)) }

/-- SELECT on categories under row-level security. -/
def selectCategories (auth_uid : Option String) (db : DBState) : List CategoryRow :=
  db.categories.filter (fun c => users_can_manage_own_categories auth_uid c)

/-- UPDATE ... WHERE id = cid on categories under row-level security. -/
def updateCategoriesWhere (auth_uid : Option String) (cid : String) (f : CategoryRow → CategoryRow) (db : DBState) : DBState :=
  { db with categories := db.categories.map (fun c => if c.id == cid && users_can_manage_own_categories auth_uid c then f c else c) }

/-- DELETE ... WHERE id = cid on categories under row-level security. -/
def deleteCategoriesWhere (auth_uid : Option String) (cid : String) (db : DBState) : DBState :=
  { db with categories := db.categories.filter (fun c => !(c.id == cid && users_can_manage_own_categories auth_uid c)) }

/- ===================== statistics functions ===================== -/

/-- Result row of public.get_task_statistics. -/
structure TaskStatsRow where
  total_tasks : Nat
  pending_tasks : Nat
  in_progress_tasks : Nat
  completed_tasks : Nat
  overdue_tasks : Nat
deriving DecidableEq

/-- The SQL comparison due_date < NOW(): a NULL date compares to unknown and
is filtered out. -/
def sqlDueBefore (d : Option Int) (now : Int) : Bool :=
  match d with
  | none => false
  | some x => decide (x < now)

/-- public.get_task_statistics: one aggregation pass over the tasks of the
given owner, counting per status, plus overdue tasks (status differs from
completed and due_date < NOW()). -/
def get_task_statistics (uid : String) (now : Int) (db : DBState) : TaskStatsRow :=
  let rows := db.tasks.filter (fun t => t.user_id == uid)
  { total_tasks := rows.length
  , pending_tasks := (rows.filter (fun t => t.status == TaskStatus.pending)).length
  , in_progress_tasks := (rows.filter (fun t => t.status == TaskStatus.in_progress)).length
  , completed_tasks := (rows.filter (fun t => t.status == TaskStatus.completed)).length
  , overdue_tasks := (rows.filter (fun t => t.status != TaskStatus.completed && sqlDueBefore t.due_date now)).length }

/-- Result row of public.get_category_statistics. -/
structure CategoryStatsRow where
  category_id : String
  category_name : String
  task_count : Nat
  completed_count : Nat
  pending_count : Nat
deriving DecidableEq

/-- One group of the LEFT JOIN aggregation: COUNT(t.id) counts only joined
task rows, so a category without tasks yields zero counts. -/
def categoryStatsOf (db : DBState) (c : CategoryRow) : CategoryStatsRow :=
  let ts := db.tasks.filter (fun t => t.category_id == some c.id)
  { category_id := c.id
  , category_name := c.name
  , task_count := ts.length
  , completed_count := (ts.filter (fun t => t.status == TaskStatus.completed)).length
  , pending_count := (ts.filter (fun t => t.status == TaskStatus.pending)).length }

/-- ORDER BY c.name: comparison by category name. -/
def byCategoryName (a b : CategoryStatsRow) : Prop :=
  a.category_name ≤ b.category_name

instance : DecidableRel byCategoryName :=
  fun a b => inferInstanceAs (Decidable (a.category_name ≤ b.category_name))

instance : IsTotal CategoryStatsRow byCategoryName :=
  ⟨fun a b => le_total a.category_name b.category_name⟩

instance : IsTrans CategoryStatsRow byCategoryName :=
  ⟨fun _ _ _ h1 h2 => le_trans h1 h2⟩

/-- public.get_category_statistics: categories of the owner, LEFT JOIN tasks
on category_id, grouped per category (id is the primary key, so groups are
exactly the owned categories), ordered by category name. -/
def get_category_statistics (uid : String) (db : DBState) : List CategoryStatsRow :=
  List.insertionSort byCategoryName
    ((db.categories.filter (fun c => c.user_id == uid)).map (categoryStatsOf db))

/- ===================== client task store ===================== -/

/-- Sort fields offered by the client task store. -/
inductive TaskSortField where
  | created_at
  | updated_at
  | due_date
  | title
  | priority
deriving DecidableEq

/-- Sort directions of the client task store. -/
inductive SortDirection where
  | asc
  | desc
deriving DecidableEq

/-- The TaskSort record of the store. -/
structure TaskSort where
  field : TaskSortField
  direction : SortDirection
deriving DecidableEq

/-- A task as held by the client store: the JS field values reached by the
sort comparator are strings, with due_date and description nullable. -/
structure ClientTask where
  id : String
  title : String
  description : Option String
  due_date : Option String
  priority : String
  status : String
  category_id : Option String
  created_at : String
  updated_at : String
deriving DecidableEq

/-- The JS member access a[sort.field]. -/
def sortValue (t : ClientTask) : TaskSortField → Option String
  | TaskSortField.created_at => some t.created_at
  | TaskSortField.updated_at => some t.updated_at
  | TaskSortField.due_date => t.due_date
  | TaskSortField.title => some t.title
  | TaskSortField.priority => some t.priority

/-- The comparator passed to Array.prototype.sort in getFilteredTasks: a null
or undefined value on the left yields 1, on the right yields -1, both before
the direction flip; otherwise lexicographic string comparison, negated for
descending order. -/
def jsCompare (s : TaskSort) (a b : ClientTask) : Int :=
  match sortValue a s.field with
  | none => 1
  | some av =>
    match sortValue b s.field with
    | none => -1
    | some bv =>
      let comparison : Int := if av < bv then -1 else if bv < av then 1 else 0
      match s.direction with
      | SortDirection.asc => comparison
      | SortDirection.desc => -comparison

/-- The TaskFilters record, restricted to the members getFilteredTasks
reads. -/
structure TaskFilters where
  status : Option (List String)
  priority : Option (List String)
  categoryId : Option (List String)
  search : Option String
deriving DecidableEq

/-- The four filter passes of getFilteredTasks.  Each optional filter applies
only when present and non-empty, mirroring the JS truthiness guards; the
category filter additionally requires a non-null category_id; the search
filter matches lowercased title or description. -/
def filterTasks (f : TaskFilters) (l : List ClientTask) : List ClientTask :=
  let l1 := match f.status with
    | some ss => if ss.length ≠ 0 then l.filter (fun t => ss.contains t.status) else l
    | none => l
  let l2 := match f.priority with
    | some ps => if ps.length ≠ 0 then l1.filter (fun t => ps.contains t.priority) else l1
    | none => l1
  let l3 := match f.categoryId with
    | some cs => if cs.length ≠ 0 then
        l2.filter (fun t => match t.category_id with
          | some cid => cs.contains cid
          | none => false)
      else l2
    | none => l2
  match f.search with
  | some s => if s ≠ "" then
      l3.filter (fun t =>
        likeContains (String.toLower s) (String.toLower t.title)
          || (match t.description with
              | some d => likeContains (String.toLower s) (String.toLower d)
              | none => false))
    else l3
  | none => l3

/-- getFilteredTasks: filter passes, then the comparator sort.  The stable JS
array sort is modelled by insertion sort ordered by a non-positive comparator
value. -/
def getFilteredTasks (tasks : List ClientTask) (f : TaskFilters) (s : TaskSort) : List ClientTask :=
  List.insertionSort (fun a b => jsCompare s a b ≤ 0) (filterTasks f tasks)

/-- The partial form data accepted by updateTask.  Fields are JS strings at
runtime, so the empty string is a possible value for each of them. -/
structure TaskFormPartial where
  title : Option String
  description : Option String
  dueDate : Option String
  priority : Option String
  status : Option String
  categoryId : Option String
deriving DecidableEq

/-- The update object sent to storage: the outer Option is presence of the
column in the update, the inner Option of the nullable columns is the value
or SQL null. -/
structure TaskUpdatePayload where
  title : Option String
  description : Option (Option String)
  due_date : Option (Option String)
  priority : Option String
  status : Option String
  category_id : Option (Option String)
deriving DecidableEq

/-- The JS expression (v || null): the empty string becomes null. -/
def emptyToNull (s : String) : Option String :=
  if s == "" then none else some s

/-- The update object built by updateTask: title, priority and status are
spread only when truthy (defined and non-empty); description, dueDate and
categoryId are spread whenever defined, with the empty string collapsed to
null. -/
def buildTaskUpdate (fd : TaskFormPartial) : TaskUpdatePayload :=
  { title := match fd.title with
      | some t => if t == "" then none else some t
      | none => none
  , description := fd.description.map emptyToNull
  , due_date := fd.dueDate.map emptyToNull
  , priority := match fd.priority with
      | some p => if p == "" then none else some p
      | none => none
  , status := match fd.status with
      | some st => if st == "" then none else some st
      | none => none
  , category_id := fd.categoryId.map emptyToNull }

/-- Effect of the storage update on one task row: present columns overwrite,
absent columns keep the stored value. -/
def applyTaskUpdate (u : TaskUpdatePayload) (t : ClientTask) : ClientTask :=
  { t with
    title := u.title.getD t.title
  , description := u.description.getD t.description
  , due_date := u.due_date.getD t.due_date
  , priority := u.priority.getD t.priority
  , status := u.status.getD t.status
  , category_id := u.category_id.getD t.category_id }

/- ===================== concrete fixtures ===================== -/

/-- The empty database. -/
def emptyDb : DBState :=
  { profiles := [], categories := [], tasks := [] }

/-- Scenario input: identity u1 with email and full name metadata. -/
def alice : NewUser :=
  { id := "u1", email := some "a@x.com", raw_full_name := some "Alice" }

/-- A task owned by identity b, used to witness the isolation claim. -/
def taskOwnedByB : TaskRow :=
  { id := "t1", title := "secret", description := none, due_date := none
  , priority := TaskPriority.medium, status := TaskStatus.pending
  , user_id := "b", category_id := none }

/-- A category owned by identity b, used to witness the isolation claim. -/
def catOwnedByB : CategoryRow :=
  { id := "c1", name := "Work", color := "#3B82F6", user_id := "b" }

/-- A database holding only rows of identity b. -/
def dbOfB : DBState :=
  { profiles := [], categories := [catOwnedByB], tasks := [taskOwnedByB] }

/-- Fixture for the task statistics claim: five tasks of owner u1 — two
pending (one of them with a past due date), one in progress, two completed
(one of them with a past due date, exercising the status guard of the
overdue count) — plus one task of another owner, exercising the owner
filter.  The reference instant now is 100. -/
def fixtureTasks : List TaskRow :=
  [ { id := "ft1", title := "pending no due", description := none, due_date := none
    , priority := TaskPriority.medium, status := TaskStatus.pending
    , user_id := "u1", category_id := none }
  , { id := "ft2", title := "pending overdue", description := none, due_date := some 50
    , priority := TaskPriority.high, status := TaskStatus.pending
    , user_id := "u1", category_id := none }
  , { id := "ft3", title := "in progress", description := none, due_date := some 200
    , priority := TaskPriority.low, status := TaskStatus.in_progress
    , user_id := "u1", category_id := none }
  , { id := "ft4", title := "completed past due", description := none, due_date := some 50
    , priority := TaskPriority.medium, status := TaskStatus.completed
    , user_id := "u1", category_id := none }
  , { id := "ft5", title := "completed", description := none, due_date := none
    , priority := TaskPriority.medium, status := TaskStatus.completed
    , user_id := "u1", category_id := none }
  , { id := "ft6", title := "other owner", description := none, due_date := some 50
    , priority := TaskPriority.medium, status := TaskStatus.pending
    , user_id := "u2", category_id := none } ]

/-- Database holding the task statistics fixture. -/
def fixtureDb : DBState :=
  { profiles := [], categories := [], tasks := fixtureTasks }

/-- A category of owner u1 with no tasks at all, witnessing the zero-count
outer-join behaviour of the category statistics. -/
def lonelyCategory : CategoryRow :=
  { id := "c9", name := "Alpha", color := "#111111", user_id := "u1" }

/-- Database holding one owned category and no tasks. -/
def lonelyDb : DBState :=
  { profiles := [], categories := [lonelyCategory], tasks := [] }

/-- Client task without a due date, witnessing the null sort behaviour. -/
def clientTaskNullDue : ClientTask :=
  { id := "k1", title := "no due", description := none, due_date := none
  , priority := "medium", status := "pending", category_id := none
  , created_at := "2024-01-02", updated_at := "2024-01-02" }

/-- Client task with a due date, witnessing the null sort behaviour. -/
def clientTaskWithDue : ClientTask :=
  { id := "k2", title := "has due", description := none, due_date := some "2024-03-01"
  , priority := "high", status := "pending", category_id := none
  , created_at := "2024-01-01", updated_at := "2024-01-01" }

/-- Empty filter set of the client store. -/
def noFilters : TaskFilters :=
  { status := none, priority := none, categoryId := none, search := none }

/-- Partial form data whose every field is present but empty. -/
def allEmptyForm : TaskFormPartial :=
  { title := some "", description := some "", dueDate := some ""
  , priority := some "", status := some "", categoryId := some "" }

/-- A stored client task with non-trivial values in every column. -/
def storedTask : ClientTask :=
  { id := "s1", title := "Pay bills", description := some "rent and power"
  , due_date := some "2024-02-01", priority := "high", status := "in_progress"
  , category_id := some "c1", created_at := "2024-01-01", updated_at := "2024-01-05" }

/- ===================== helper lemmas ===================== -/

/-- A filter has length zero exactly when no element passes the predicate. -/
theorem length_filter_eq_zero_iff {α : Type} (p : α → Bool) (l : List α) :
    (l.filter p).length = 0 ↔ l.any p = false := by
  induction l with
  | nil => simp
  | cons a t ih =>
    cases hp : p a <;> simp [List.filter_cons, List.any_cons, hp, ih]

/-- A positive filter length forces some element to pass the predicate. -/
theorem any_of_length_filter_pos {α : Type} (p : α → Bool) (l : List α)
    (h : 0 < (l.filter p).length) : l.any p = true := by
  cases hl : l.any p with
  | true => rfl
  | false =>
    rw [(length_filter_eq_zero_iff p l).mpr hl] at h
    exact absurd h (by decide)

/-- Composing two filters counts the conjunction of the predicates. -/
theorem length_filter_filter {α : Type} (p q : α → Bool) (l : List α) :
    ((l.filter p).filter q).length = l.countP (fun a => p a && q a) := by
  rw [← List.countP_eq_length_filter, List.countP_filter]
  exact congrFun (congrArg List.countP (funext fun a => Bool.and_comm (q a) (p a))) l

/-- Boolean conjunction with the last two conjuncts swapped. -/
theorem bool_and_swap (a b c : Bool) : (a && (b && c)) = (a && (c && b)) := by
  cases a <;> cases b <;> cases c <;> rfl

/-- Disjunction shuffle matching the profile insert policy combination. -/
theorem bool_or_rotate (a b c d t : Bool) :
    (a || b || c || d || t) = (a || b || d || c || t) := by
  cases a <;> cases b <;> cases c <;> cases d <;> cases t <;> rfl

/- ===================== claim theorems ===================== -/

/-- Claim C1: whatever the outcome of the statements inside the body of the
installed Provisioning Trigger, the EXCEPTION WHEN OTHERS handler swallows
the error and the trigger returns NEW, so identity creation succeeds and, on
the error path, leaves the application tables untouched.  In particular the
concrete trigger run inside signUp never blocks identity creation. -/
theorem C1_trigger_swallows_provisioning_errors (u : NewUser) (db : DBState)
    (r : Except PgError DBState) (e : PgError) :
    (handle_new_user_on r db).2 = true
    ∧ (signupWith r db).identity_created = true
    ∧ (signupWith (Except.error e) db).db = db
    ∧ (signUp u db).identity_created = true := by
  refine ⟨?_, ?_, rfl, ?_⟩
  · cases r <;> rfl
  · cases r <;> rfl
  · cases h : profilesInsert (profileRowOfUser u) db <;>
      simp [signUp, signupWith, handle_new_user_on, h]

/-- Claim C2 (code bug evaluation): signing up identity u1 with email and
full-name metadata runs the installed trigger, which creates the profile row
with copied email, copied display name and empty preferences, but creates no
categories at all: the fix migration dropped the seeding call from the
trigger body, so the category table stays empty instead of holding the five
default categories.  The superseded trigger version that did call the
seeding function fails as a whole, because the seeding insert raises at
ON CONFLICT inference; under it the identity insert would abort. -/
theorem C2_trigger_leaves_zero_default_categories :
    (signUp alice emptyDb).identity_created = true
    ∧ (signUp alice emptyDb).db.profiles
        = [{ id := "u1", email := some "a@x.com", full_name := some "Alice", preferences := [] }]
    ∧ ((signUp alice emptyDb).db.categories.filter (fun c => c.user_id == "u1")).length = 0
    ∧ handle_new_user_v000 alice emptyDb = Except.error PgError.onConflictInference :=
  ⟨rfl, rfl, rfl, rfl⟩

/-- Claim C4 (code bug evaluation): the default-category seeding statement
names ON CONFLICT (name, user_id), but the categories table carries no unique
constraint on those columns, so every invocation of
create_default_categories_for_user raises the conflict-inference error and
inserts nothing — the call is not idempotent-by-skipping, it always fails. -/
theorem C4_seeding_always_raises_inference_error (uid : String) (db : DBState) :
    create_default_categories_for_user uid db = Except.error PgError.onConflictInference := by
  rfl

/-- Claim C5 (counterexample): an insert evaluated on a connection whose
current_user and session_user are postgres, with no service-role claim, no
service-role setting and a row id different from the principal id, is allowed
by the policy set (through the third policy) although none of the three
conditions named by the claim holds. -/
theorem C5_insert_policy_counterexample :
    profiles_insert_allowed
      { auth_uid := some "userA", auth_role := "authenticated", role_setting := "authenticated"
      , db_role := "authenticated", application_name := "psql"
      , current_user := "postgres", session_user := "postgres" } "userB" = true
    ∧ claimed_profiles_insert_allowed
      { auth_uid := some "userA", auth_role := "authenticated", role_setting := "authenticated"
      , db_role := "authenticated", application_name := "psql"
      , current_user := "postgres", session_user := "postgres" } "userB" = false := by
  exact ⟨rfl, rfl⟩

/-- Claim C5 (amended): an insert into profiles is permitted precisely when
the principal id equals the row id, or the principal is the elevated service
role, or the session carries the elevated-role marker, or additionally when
the trigger-oriented policy matches — the application name contains the word
trigger, or the connection runs as the postgres superuser (current_user or
session_user); the policies still combine disjunctively. -/
theorem C5_insert_policy_amended (c : PolicyCtx) (row_id : String) :
    profiles_insert_allowed c row_id
      = (claimed_profiles_insert_allowed c row_id || policy_allow_trigger_to_insert c) := by
  simp only [profiles_insert_allowed, claimed_profiles_insert_allowed,
    policy_users_can_insert_own_profile, policy_allow_service_role_to_insert]
  exact bool_or_rotate (c.auth_uid == some row_id) (c.auth_role == "service_role")
    (c.role_setting == "service_role") (c.db_role == "service_role")
    (policy_allow_trigger_to_insert c)

/-- No profile with the given id means the membership scan of the insert
fails. -/
theorem no_profile_any_false (uid : String) (db : DBState)
    (h : countProfiles uid db = 0) :
    db.profiles.any (fun p => p.id == uid) = false := by
  rw [countProfiles] at h
  exact (length_filter_eq_zero_iff _ db.profiles).mp h

/-- One profile with the given id makes the membership scan of the repair
procedure succeed. -/
theorem one_profile_any_true (uid : String) (db : DBState)
    (h : countProfiles uid db = 1) :
    db.profiles.any (fun p => p.id == uid) = true :=
  any_of_length_filter_pos _ _ (by rw [countProfiles] at h; omega)

/-- The repair procedure is a no-op on a database that already holds exactly
one profile with the id. -/
theorem ensure_user_profile_noop (uid : String) (user_email user_name : Option String)
    (db : DBState) (h : countProfiles uid db = 1) :
    ensure_user_profile uid user_email user_name db = db := by
  rw [ensure_user_profile, one_profile_any_true uid db h]
  rfl

/-- Iterating the repair procedure preserves the exactly-one invariant. -/
theorem iterateRepair_preserves_one (uid : String) (user_email user_name : Option String)
    (k : Nat) (db : DBState) (h : countProfiles uid db = 1) :
    countProfiles uid (iterateRepair uid user_email user_name k db) = 1 := by
  induction k generalizing db with
  | zero => exact h
  | succ n ih =>
    rw [iterateRepair, ensure_user_profile_noop uid user_email user_name db h]
    exact ih db h

/-- Identity creation on a database with no profile for the fresh id inserts
exactly the trigger profile row. -/
theorem signUp_fresh_db (u : NewUser) (db : DBState)
    (h : countProfiles u.id db = 0) :
    (signUp u db).db = { db with profiles := db.profiles ++ [profileRowOfUser u] } := by
  have hany : db.profiles.any (fun q => q.id == (profileRowOfUser u).id) = false := by
    simpa [profileRowOfUser] using no_profile_any_false u.id db h
  simp [signUp, signupWith, handle_new_user_on, profilesInsert, hany]

/-- Appending the trigger row raises the count for the fresh id to one. -/
theorem countProfiles_append_own (u : NewUser) (db : DBState)
    (h : countProfiles u.id db = 0) :
    countProfiles u.id { db with profiles := db.profiles ++ [profileRowOfUser u] } = 1 := by
  rw [countProfiles] at h ⊢
  simp only [List.filter_append] at *
  simp [h, profileRowOfUser]

/-- Claim C3: for a fresh identity id, identity creation followed by any
number of repair calls leaves exactly one profile row with that id, and any
repair call on a database already holding exactly one such row is a silent
no-op (the conflict on the profiles primary key is swallowed, not raised;
the repair procedure as modelled has no error path at all since its conflict
target is the primary key). -/
theorem C3_exactly_one_profile (u : NewUser) (user_email user_name : Option String)
    (db : DBState) (k : Nat) (h : countProfiles u.id db = 0) :
    countProfiles u.id (iterateRepair u.id user_email user_name k (signUp u db).db) = 1
    ∧ (∀ db2 : DBState, countProfiles u.id db2 = 1 →
        ensure_user_profile u.id user_email user_name db2 = db2) := by
  constructor
  · have h1 : countProfiles u.id (signUp u db).db = 1 := by
      rw [signUp_fresh_db u db h]
      exact countProfiles_append_own u db h
    exact iterateRepair_preserves_one u.id user_email user_name k _ h1
  · intro db2 h2
    exact ensure_user_profile_noop u.id user_email user_name db2 h2

/-- Claim C3 witness: on the empty database, creating identity u1 and then
repairing twice leaves exactly one profile row for u1, and the repair call on
the resulting state is a no-op. -/
theorem C3_exactly_one_profile_witness :
    countProfiles "u1" (iterateRepair "u1" none none 2 (signUp alice emptyDb).db) = 1
    ∧ ensure_user_profile "u1" none none (signUp alice emptyDb).db = (signUp alice emptyDb).db := by
  have h := C3_exactly_one_profile alice none none emptyDb 2 (by decide)
  exact ⟨h.1, h.2 (signUp alice emptyDb).db (by decide)⟩

/-- Distinct principals never pass the blanket task policy for the other
owner. -/
theorem task_policy_other_owner (A : String) (t : TaskRow) (h : t.user_id ≠ A) :
    users_can_manage_own_tasks (some A) t = false := by
  rw [users_can_manage_own_tasks]
  exact beq_eq_false_iff_ne.mpr (fun hc => h (Option.some.inj hc).symm)

/-- Distinct principals never pass the blanket category policy for the other
owner. -/
theorem category_policy_other_owner (A : String) (c : CategoryRow) (h : c.user_id ≠ A) :
    users_can_manage_own_categories (some A) c = false := by
  rw [users_can_manage_own_categories]
  exact beq_eq_false_iff_ne.mpr (fun hc => h (Option.some.inj hc).symm)

/-- Claim C6: under the blanket per-table policies, a principal A distinct
from B sees only rows it owns, its update and delete statements leave every
row owned by B untouched, and the insert check rejects any row whose owner
column is B. -/
theorem C6_owner_isolation (A B : String) (db : DBState) (hAB : A ≠ B) :
    (∀ t ∈ selectTasks (some A) db, t.user_id = A)
    ∧ (∀ (tid : String) (f : TaskRow → TaskRow) (t : TaskRow),
        t ∈ db.tasks → t.user_id = B → t ∈ (updateTasksWhere (some A) tid f db).tasks)
    ∧ (∀ (tid : String) (t : TaskRow),
        t ∈ db.tasks → t.user_id = B → t ∈ (deleteTasksWhere (some A) tid db).tasks)
    ∧ (∀ t : TaskRow, t.user_id = B → users_can_manage_own_tasks (some A) t = false)
    ∧ (∀ c ∈ selectCategories (some A) db, c.user_id = A)
    ∧ (∀ (cid : String) (f : CategoryRow → CategoryRow) (c : CategoryRow),
        c ∈ db.categories → c.user_id = B → c ∈ (updateCategoriesWhere (some A) cid f db).categories)
    ∧ (∀ (cid : String) (c : CategoryRow),
        c ∈ db.categories → c.user_id = B → c ∈ (deleteCategoriesWhere (some A) cid db).categories)
    ∧ (∀ c : CategoryRow, c.user_id = B → users_can_manage_own_categories (some A) c = false) := by
  have hTB : ∀ t : TaskRow, t.user_id = B → users_can_manage_own_tasks (some A) t = false := by
    intro t ht
    exact task_policy_other_owner A t (by rw [ht]; exact fun hc => hAB hc.symm)
  have hCB : ∀ c : CategoryRow, c.user_id = B → users_can_manage_own_categories (some A) c = false := by
    intro c hc
    exact category_policy_other_owner A c (by rw [hc]; exact fun hx => hAB hx.symm)
  refine ⟨?_, ?_, ?_, hTB, ?_, ?_, ?_, hCB⟩
  · intro t ht
    have hp := (List.mem_filter.mp ht).2
    rw [users_can_manage_own_tasks] at hp
    exact (Option.some.inj (eq_of_beq hp)).symm ▸ rfl
  · intro tid f t ht htB
    rw [updateTasksWhere]
    refine List.mem_map.mpr ⟨t, ht, ?_⟩
    rw [hTB t htB, Bool.and_false, if_neg (by simp)]
  · intro tid t ht htB
    rw [deleteTasksWhere]
    exact List.mem_filter.mpr ⟨ht, by rw [hTB t htB, Bool.and_false]; rfl⟩
  · intro c hc
    have hp := (List.mem_filter.mp hc).2
    rw [users_can_manage_own_categories] at hp
    exact (Option.some.inj (eq_of_beq hp)).symm ▸ rfl
  · intro cid f c hc hcB
    rw [updateCategoriesWhere]
    refine List.mem_map.mpr ⟨c, hc, ?_⟩
    rw [hCB c hcB, Bool.and_false, if_neg (by simp)]
  · intro cid c hc hcB
    rw [deleteCategoriesWhere]
    exact List.mem_filter.mpr ⟨hc, by rw [hCB c hcB, Bool.and_false]; rfl⟩

/-- Claim C6 witness: principal a cannot delete or policy-match the task and
category owned by b. -/
theorem C6_owner_isolation_witness :
    taskOwnedByB ∈ (deleteTasksWhere (some "a") "t1" dbOfB).tasks
    ∧ users_can_manage_own_tasks (some "a") taskOwnedByB = false
    ∧ catOwnedByB ∈ (deleteCategoriesWhere (some "a") "c1" dbOfB).categories
    ∧ users_can_manage_own_categories (some "a") catOwnedByB = false := by
  have h := C6_owner_isolation "a" "b" dbOfB (by decide)
  exact ⟨h.2.2.1 "t1" taskOwnedByB (by decide) rfl,
    h.2.2.2.1 taskOwnedByB rfl,
    h.2.2.2.2.2.2.1 "c1" catOwnedByB (by decide) rfl,
    h.2.2.2.2.2.2.2 catOwnedByB rfl⟩

/-- Claim C7: for every owner and database, get_task_statistics returns the
owner task count, the per-status counts, and an overdue count of tasks whose
due date is strictly before the reference instant and whose status is not
completed; on the fixture of five u1 tasks (two pending, one in progress,
two completed, one pending task overdue) it returns the quintuple
(5, 2, 1, 2, 1). -/
theorem C7_task_statistics (uid : String) (now : Int) (db : DBState) :
    (get_task_statistics uid now db).total_tasks
        = db.tasks.countP (fun t => t.user_id == uid)
    ∧ (get_task_statistics uid now db).pending_tasks
        = db.tasks.countP (fun t => t.user_id == uid && t.status == TaskStatus.pending)
    ∧ (get_task_statistics uid now db).in_progress_tasks
        = db.tasks.countP (fun t => t.user_id == uid && t.status == TaskStatus.in_progress)
    ∧ (get_task_statistics uid now db).completed_tasks
        = db.tasks.countP (fun t => t.user_id == uid && t.status == TaskStatus.completed)
    ∧ (get_task_statistics uid now db).overdue_tasks
        = db.tasks.countP (fun t =>
            t.user_id == uid && (sqlDueBefore t.due_date now && t.status != TaskStatus.completed))
    ∧ get_task_statistics "u1" 100 fixtureDb
        = { total_tasks := 5, pending_tasks := 2, in_progress_tasks := 1
          , completed_tasks := 2, overdue_tasks := 1 } := by
  refine ⟨?_, ?_, ?_, ?_, ?_, by decide⟩
  · simp only [get_task_statistics]
    exact (List.countP_eq_length_filter _ _).symm
  · simp only [get_task_statistics]
    exact length_filter_filter _ _ _
  · simp only [get_task_statistics]
    exact length_filter_filter _ _ _
  · simp only [get_task_statistics]
    exact length_filter_filter _ _ _
  · simp only [get_task_statistics]
    rw [length_filter_filter]
    exact congrFun (congrArg List.countP (funext fun t =>
      bool_and_swap (t.user_id == uid) (t.status != TaskStatus.completed)
        (sqlDueBefore t.due_date now))) db.tasks

/-- Claim C8: get_category_statistics returns one entry per category owned by
the principal (the id and name multiset of the output matches the owned
categories exactly), each entry carries the total, completed and pending
counts of the tasks referencing that category, entries whose category no task
references show zero counts, and the output is sorted by category name
ascending. -/
theorem C8_category_statistics (uid : String) (db : DBState) :
    ((get_category_statistics uid db).map (fun e => (e.category_id, e.category_name))).Perm
        ((db.categories.filter (fun c => c.user_id == uid)).map (fun c => (c.id, c.name)))
    ∧ (∀ e ∈ get_category_statistics uid db,
        e.task_count = db.tasks.countP (fun t => t.category_id == some e.category_id)
        ∧ e.completed_count = db.tasks.countP (fun t =>
            t.category_id == some e.category_id && t.status == TaskStatus.completed)
        ∧ e.pending_count = db.tasks.countP (fun t =>
            t.category_id == some e.category_id && t.status == TaskStatus.pending))
    ∧ (∀ e ∈ get_category_statistics uid db,
        (∀ t ∈ db.tasks, ¬ t.category_id = some e.category_id) →
        e.task_count = 0 ∧ e.completed_count = 0 ∧ e.pending_count = 0)
    ∧ List.Sorted byCategoryName (get_category_statistics uid db) := by
  have hperm := List.perm_insertionSort byCategoryName
    ((db.categories.filter (fun c => c.user_id == uid)).map (categoryStatsOf db))
  have hmem : ∀ e ∈ get_category_statistics uid db,
      e.task_count = db.tasks.countP (fun t => t.category_id == some e.category_id)
      ∧ e.completed_count = db.tasks.countP (fun t =>
          t.category_id == some e.category_id && t.status == TaskStatus.completed)
      ∧ e.pending_count = db.tasks.countP (fun t =>
          t.category_id == some e.category_id && t.status == TaskStatus.pending) := by
    intro e he
    have he2 : e ∈ (db.categories.filter (fun c => c.user_id == uid)).map (categoryStatsOf db) :=
      hperm.mem_iff.mp he
    rcases List.mem_map.mp he2 with ⟨c, _, rfl⟩
    refine ⟨?_, ?_, ?_⟩
    · simp only [categoryStatsOf]
      exact (List.countP_eq_length_filter _ _).symm
    · simp only [categoryStatsOf]
      exact length_filter_filter _ _ _
    · simp only [categoryStatsOf]
      exact length_filter_filter _ _ _
  refine ⟨?_, hmem, ?_, ?_⟩
  · have h1 := hperm.map (fun e : CategoryStatsRow => (e.category_id, e.category_name))
    rw [List.map_map] at h1
    have hf : ((fun e : CategoryStatsRow => (e.category_id, e.category_name)) ∘ categoryStatsOf db)
        = (fun c : CategoryRow => (c.id, c.name)) := funext fun c => rfl
    rw [hf] at h1
    exact h1
  · intro e he hnone
    rcases hmem e he with ⟨h1, h2, h3⟩
    have hz : db.tasks.countP (fun t => t.category_id == some e.category_id) = 0 := by
      refine List.countP_eq_zero.mpr ?_
      intro t ht
      exact fun hb => hnone t ht (eq_of_beq hb)
    refine ⟨h1.trans hz, ?_, ?_⟩
    · refine h2.trans (List.countP_eq_zero.mpr ?_)
      intro t ht hb
      exact hnone t ht (eq_of_beq (Bool.and_elim_left hb))
    · refine h3.trans (List.countP_eq_zero.mpr ?_)
      intro t ht hb
      exact hnone t ht (eq_of_beq (Bool.and_elim_left hb))
  · exact List.sorted_insertionSort byCategoryName _

/-- Claim C8 witness: on the database holding one owned category and no
tasks, the single output entry reports zero total, completed and pending
counts. -/
theorem C8_category_statistics_witness :
    (categoryStatsOf lonelyDb lonelyCategory).task_count = 0
    ∧ (categoryStatsOf lonelyDb lonelyCategory).completed_count = 0
    ∧ (categoryStatsOf lonelyDb lonelyCategory).pending_count = 0 := by
  have h := (C8_category_statistics "u1" lonelyDb).2.2.1
    (categoryStatsOf lonelyDb lonelyCategory) (by decide) (by intro t ht; cases ht)
  exact h

/-- Inserting with a relation that never accepts a null on the left and
always accepts a non-null before a null preserves the nulls-form-a-suffix
invariant. -/
theorem pairwise_nulls_orderedInsert {α : Type} (r : α → α → Prop) [DecidableRel r]
    (nullv : α → Prop)
    (h1 : ∀ a b, nullv a → ¬ r a b)
    (h2 : ∀ a b, ¬ nullv a → nullv b → r a b)
    (x : α) (l : List α)
    (hl : List.Pairwise (fun a b => nullv a → nullv b) l) :
    List.Pairwise (fun a b => nullv a → nullv b) (List.orderedInsert r x l) := by
  induction l with
  | nil => simp
  | cons b t ih =>
    rcases List.pairwise_cons.mp hl with ⟨hb, ht⟩
    by_cases hrxb : r x b
    · rw [List.orderedInsert, if_pos hrxb]
      refine List.pairwise_cons.mpr ⟨?_, hl⟩
      intro y _ hx
      exact absurd hrxb (h1 x b hx)
    · rw [List.orderedInsert, if_neg hrxb]
      refine List.pairwise_cons.mpr ⟨?_, ih ht⟩
      intro y hy hbnull
      rcases (List.mem_orderedInsert r).mp hy with rfl | hyt
      · by_cases hx : nullv y
        · exact hx
        · exact absurd (h2 y b hx hbnull) hrxb
      · exact hb y hyt hbnull

/-- Insertion sort with such a relation puts every null element after every
non-null element. -/
theorem pairwise_nulls_insertionSort {α : Type} (r : α → α → Prop) [DecidableRel r]
    (nullv : α → Prop)
    (h1 : ∀ a b, nullv a → ¬ r a b)
    (h2 : ∀ a b, ¬ nullv a → nullv b → r a b)
    (l : List α) :
    List.Pairwise (fun a b => nullv a → nullv b) (List.insertionSort r l) := by
  induction l with
  | nil => simp
  | cons a t ih =>
    rw [List.insertionSort]
    exact pairwise_nulls_orderedInsert r nullv h1 h2 a _ ih

/-- A null sort value on the left makes the comparator return 1. -/
theorem jsCompare_null_left (s : TaskSort) (a b : ClientTask)
    (ha : sortValue a s.field = none) : jsCompare s a b = 1 := by
  rw [jsCompare, ha]

/-- A non-null value on the left and a null on the right make the comparator
return -1, before any direction flip. -/
theorem jsCompare_null_right (s : TaskSort) (a b : ClientTask) (av : String)
    (ha : sortValue a s.field = some av) (hb : sortValue b s.field = none) :
    jsCompare s a b = -1 := by
  rw [jsCompare, ha, hb]

/-- Claim C9: in getFilteredTasks, for every task list, filter set, sort
field and sort direction, every task whose value at the sort field is null
comes after every task with a non-null value; in the output a null-valued
task is never followed by a non-null-valued one, so reversing the direction
never moves null-valued tasks to the front. -/
theorem C9_null_values_sort_last (tasks : List ClientTask) (f : TaskFilters) (s : TaskSort) :
    List.Pairwise (fun a b => sortValue a s.field = none → sortValue b s.field = none)
      (getFilteredTasks tasks f s) := by
  rw [getFilteredTasks]
  refine pairwise_nulls_insertionSort _ (fun t => sortValue t s.field = none) ?_ ?_ _
  · intro a b ha
    rw [jsCompare_null_left s a b ha]
    decide
  · intro a b ha hb
    rcases hav : sortValue a s.field with _ | av
    · exact absurd hav ha
    · rw [jsCompare_null_right s a b av hav hb]
      decide

/-- Claim C9 witness: sorting two tasks by due date in descending order keeps
the task without a due date behind the task that has one. -/
theorem C9_null_values_sort_last_witness :
    List.Pairwise
      (fun a b => sortValue a TaskSortField.due_date = none → sortValue b TaskSortField.due_date = none)
      (getFilteredTasks [clientTaskNullDue, clientTaskWithDue] noFilters
        { field := TaskSortField.due_date, direction := SortDirection.desc }) :=
  C9_null_values_sort_last [clientTaskNullDue, clientTaskWithDue] noFilters
    { field := TaskSortField.due_date, direction := SortDirection.desc }

/-- Claim C10: in updateTask, a title, priority or status supplied as the
empty string is dropped from the update object, so the stored column keeps
its previous value (and the construction raises nothing); a description, due
date or category supplied as the empty string is sent as null and overwrites
the stored column. -/
theorem C10_updateTask_empty_string_fields (fd : TaskFormPartial) (t : ClientTask) :
    (fd.title = some "" → (buildTaskUpdate fd).title = none
      ∧ (applyTaskUpdate (buildTaskUpdate fd) t).title = t.title)
    ∧ (fd.priority = some "" → (buildTaskUpdate fd).priority = none
      ∧ (applyTaskUpdate (buildTaskUpdate fd) t).priority = t.priority)
    ∧ (fd.status = some "" → (buildTaskUpdate fd).status = none
      ∧ (applyTaskUpdate (buildTaskUpdate fd) t).status = t.status)
    ∧ (fd.description = some "" → (buildTaskUpdate fd).description = some none
      ∧ (applyTaskUpdate (buildTaskUpdate fd) t).description = none)
    ∧ (fd.dueDate = some "" → (buildTaskUpdate fd).due_date = some none
      ∧ (applyTaskUpdate (buildTaskUpdate fd) t).due_date = none)
    ∧ (fd.categoryId = some "" → (buildTaskUpdate fd).category_id = some none
      ∧ (applyTaskUpdate (buildTaskUpdate fd) t).category_id = none) := by
  refine ⟨?_, ?_, ?_, ?_, ?_, ?_⟩ <;> intro h <;>
    simp [buildTaskUpdate, applyTaskUpdate, emptyToNull, h]

/-- Claim C10 witness: updating the stored task with the all-empty form keeps
title, priority and status, and nulls description, due date and category. -/
theorem C10_updateTask_empty_string_fields_witness :
    (applyTaskUpdate (buildTaskUpdate allEmptyForm) storedTask).title = storedTask.title
    ∧ (applyTaskUpdate (buildTaskUpdate allEmptyForm) storedTask).priority = storedTask.priority
    ∧ (applyTaskUpdate (buildTaskUpdate allEmptyForm) storedTask).status = storedTask.status
    ∧ (applyTaskUpdate (buildTaskUpdate allEmptyForm) storedTask).description = none
    ∧ (applyTaskUpdate (buildTaskUpdate allEmptyForm) storedTask).due_date = none
    ∧ (applyTaskUpdate (buildTaskUpdate allEmptyForm) storedTask).category_id = none := by
  have h := C10_updateTask_empty_string_fields allEmptyForm storedTask
  exact ⟨(h.1 rfl).2, (h.2.1 rfl).2, (h.2.2.1 rfl).2,
    (h.2.2.2.1 rfl).2, (h.2.2.2.2.1 rfl).2, (h.2.2.2.2.2 rfl).2⟩
